import Mathlib

/-!
# Verification of the cast-resolution and view-model mapping logic of
# `react-farcaster-embed` (`src/index.tsx`)

The repository renders a Farcaster cast as an embed.  Its non-presentational
logic consists of two pieces:

* `getCast` — fetches a short thread of casts from the Warpcast API and
  selects the cast to render, skipping a synthetic `"root-embed"` wrapper
  cast, and wrapping any fetch/parse failure into the single generic error
  `"Unable to fetch cast."`;
* `FarcasterEmbed` — the render entry point: parses an optional Warpcast URL
  into `(username, hash)` by positional split on `"/"`, validates that both
  are non-empty, and derives the display fields (profile URL, canonical cast
  URL, reply/recast/like/watch counts, media embed lists, channel badge)
  from the resolved cast.

This file is a shallow embedding of that logic.  JavaScript `undefined` is
modelled by `Option`; a thrown JavaScript error (`TypeError` from a property
access on `undefined`, or an explicit `throw`) is modelled by `Except.error`.
Strings that participate in URL splitting/assembly are modelled as `List Char`
so that the split function can be reasoned about; other strings stay `String`.
The network fetch (together with `res.json()` and the `cast.result.casts`
shape access, all inside the same `try` block in the source) is an external
effect: it is passed to the model as an explicit `Except String ProviderResponse`
argument, `.error` meaning the fetch failed, the body was not JSON, or the
parsed value lacked the `result.casts` shape.
-/

/-- Strings manipulated character-wise (JavaScript strings that are split on
`"/"` or assembled from parts). -/
abbrev JStr := List Char

/-- Coerce a Lean string literal to the character-list representation. -/
def str (s : String) : JStr := s.data

/-- Model of JavaScript `s.split("/")` (single-character separator): splits
the string at every occurrence of `sep`, keeping empty segments, and returns
`[[]]` on the empty string — exactly `"".split("/") === [""]`. -/
def jsSplit (sep : Char) : JStr → List JStr
  | [] => [[]]
  | c :: rest =>
    if c = sep then
      [] :: jsSplit sep rest
    else
      match jsSplit sep rest with
      | [] => [[c]]
      | s :: ss => (c :: s) :: ss

/-- A sub-object bearing a single `count` field (`replies`, `reactions`,
`recasts`, `watches` in the provider response). -/
structure CountObj where
  count : Nat
deriving DecidableEq, Repr

/-- The author object of a cast (`cast.author` in the provider response).
`username` is a `JStr` because it is spliced into the canonical cast URL. -/
structure Author where
  fid : Nat
  username : JStr
  displayName : String
  pfpUrl : String
deriving DecidableEq, Repr

/-- Image embed entry (`CastImage` in the source). -/
structure CastImage where
  type : String
  url : String
  sourceUrl : String
  alt : String
deriving DecidableEq, Repr

/-- Video embed entry (`CastVideo` in the source).  `width` and `height` are
pixel counts. -/
structure CastVideo where
  url : String
  sourceUrl : String
  width : Nat
  height : Nat
  duration : Nat
  thumbnailUrl : String
deriving DecidableEq, Repr

/-- The optional `cast.embeds` sub-object; each media list may itself be
absent. -/
structure CastEmbeds where
  images : Option (List CastImage)
  videos : Option (List CastVideo)
deriving DecidableEq, Repr

/-- A channel tag entry (`cast.tags[i]`); both displayed fields are read
behind truthiness guards in the source, so they are optional here. -/
structure Tag where
  imageUrl : Option String
  name : Option String
deriving DecidableEq, Repr

/-- The provider's representation of a cast, restricted to the fields the
source reads.  Optional fields are exactly those the source guards with `&&`
or a ternary (`replies`, `reactions`, `combinedRecastCount`, `recasts`,
`watches`, `embeds`) plus `castType`, which is only compared against
`"root-embed"`.  `hash` is a `JStr` because it is spliced into the canonical
cast URL. -/
structure Cast where
  castType : Option String
  author : Author
  hash : JStr
  timestamp : Nat
  text : String
  replies : Option CountObj
  reactions : Option CountObj
  combinedRecastCount : Option Nat
  recasts : Option CountObj
  watches : Option CountObj
  embeds : Option CastEmbeds
  tags : List Tag
deriving DecidableEq, Repr

/-- The parsed JSON response shape `{ result: { casts: [...] } }`, flattened
to its only used component. -/
structure ProviderResponse where
  casts : List Cast
deriving DecidableEq, Repr

/-- The generic error message `getCast` throws for any failure inside its
`try` block (source line 42). -/
def fetchErrorMsg : String := "Unable to fetch cast."

/-- The validation error message of the render entry point (source line 64). -/
def invalidInputMsg : String :=
  "You must provide a Warpcast URL or username and hash to embed a cast."

/-- Lines 36–40 of the source: inspect `cast.result.casts[0]`.  On an empty
list, `casts[0]` is `undefined` and reading `.castType` throws a `TypeError`
(modelled as `.error`).  If the first cast is a `"root-embed"` wrapper the
second entry is returned — which is `undefined` (`none`) when there is no
second entry, returned without any error.  Otherwise the first cast is
returned unchanged. -/
def selectCast (casts : List Cast) : Except String (Option Cast) :=
  match casts[0]? with
  | none => .error "TypeError: cannot read castType of undefined"
  | some c0 =>
    if c0.castType = some "root-embed" then
      .ok casts[1]?
    else
      .ok (some c0)

/-- Model of `getCast` (source lines 28–44).  The whole body sits in a
`try`/`catch` that rethrows every failure as the single generic error
`fetchErrorMsg`: both a failed fetch/parse (`fetchResult = .error _`) and the
`TypeError` raised by `selectCast` on an empty list are caught and replaced
by it.  A successful selection may still be `none` (the `undefined` returned
for a root-embed wrapper with no second entry). -/
def getCast (fetchResult : Except String ProviderResponse) :
    Except String (Option Cast) :=
  match fetchResult with
  | .error _ => .error fetchErrorMsg
  | .ok resp =>
    match selectCast resp.casts with
    | .error _ => .error fetchErrorMsg
    | .ok c => .ok c

/-- JavaScript truthiness of an optional number: `undefined` and `0` are
falsy, every other number is truthy (used for `cast.combinedRecastCount ?`,
source line 83). -/
def optNatTruthy : Option Nat → Bool
  | none => false
  | some n => n != 0

/-- JavaScript falsiness of an optional string: `undefined` and `""` are
falsy (used for `if (url)` on line 57 and `if (!username || !hash)` on
line 63). -/
def optStrFalsy : Option JStr → Bool
  | none => true
  | some s => s.isEmpty

/-- Line 81: `cast.replies && cast.replies.count` — `undefined` when the
sub-object is absent, its `count` otherwise.  The result is a bare value, no
coercion to `0`. -/
def derivedReplies (c : Cast) : Option Nat :=
  match c.replies with
  | none => none
  | some r => some r.count

/-- Line 82: `cast.reactions && cast.reactions.count`. -/
def derivedLikes (c : Cast) : Option Nat :=
  match c.reactions with
  | none => none
  | some r => some r.count

/-- Line 84: `cast.watches && cast.watches.count`. -/
def derivedWatches (c : Cast) : Option Nat :=
  match c.watches with
  | none => none
  | some w => some w.count

/-- Line 83: `cast.combinedRecastCount ? cast.combinedRecastCount :
cast.recasts.count`.  When `combinedRecastCount` is truthy it is used
verbatim; otherwise `cast.recasts.count` is read — a `TypeError` (modelled
as `.error`) when `recasts` is absent. -/
def derivedRecasts (c : Cast) : Except String Nat :=
  match c.combinedRecastCount with
  | some n =>
    if n != 0 then .ok n
    else
      match c.recasts with
      | some r => .ok r.count
      | none => .error "TypeError: cannot read count of undefined"
  | none =>
    match c.recasts with
    | some r => .ok r.count
    | none => .error "TypeError: cannot read count of undefined"

/-- Insert a `','` after every third character of a reversed digit string
(helper for the `en-US` thousands grouping of `Number.toLocaleString`). -/
def groupRev : List Char → List Char
  | d1 :: d2 :: d3 :: d4 :: rest => d1 :: d2 :: d3 :: ',' :: groupRev (d4 :: rest)
  | l => l

/-- `n.toLocaleString("en-US")` for a non-negative integer: decimal digits
with a comma every three digits from the right. -/
def toLocaleStringEnUS (n : Nat) : String :=
  String.mk ((groupRev (toString n).data.reverse).reverse)

/-- Evaluation of `x.toLocaleString("en-US")` where `x` may be `undefined`
(the engagement-count spans, source lines 161, 173, 179): on `undefined` the
method call throws a `TypeError`. -/
def formatCount : Option Nat → Except String String
  | none => .error "TypeError: cannot read toLocaleString of undefined"
  | some n => .ok (toLocaleStringEnUS n)

/-- An image embed as rendered (source lines 116–122): the link and the
image both use `image.url`, the alt text is `image.alt`, both unchanged. -/
structure RenderedImage where
  url : String
  alt : String
deriving DecidableEq, Repr

/-- A video embed as rendered (source lines 127–135): `source` is the
video's `sourceUrl`, `aspectRatio` is `video.width / video.height` (exact
rational division in this model), `poster` is the `thumbnailUrl`. -/
structure RenderedVideo where
  source : String
  aspectRatio : ℚ
  poster : String
deriving DecidableEq, Repr

/-- Lines 85–86, 114–124: the rendered image list — empty when `embeds` or
`embeds.images` is absent (or empty), else the image list mapped in order. -/
def renderedImages (c : Cast) : List RenderedImage :=
  match c.embeds with
  | none => []
  | some e =>
    match e.images with
    | none => []
    | some imgs => imgs.map fun i => { url := i.url, alt := i.alt }

/-- Lines 87–88, 125–138: the rendered video list — empty when `embeds` or
`embeds.videos` is absent (or empty), else the video list mapped in order,
with `aspectRatio = width / height`. -/
def renderedVideos (c : Cast) : List RenderedVideo :=
  match c.embeds with
  | none => []
  | some e =>
    match e.videos with
    | none => []
    | some vids =>
      vids.map fun v =>
        { source := v.sourceUrl
          aspectRatio := (v.width : ℚ) / (v.height : ℚ)
          poster := v.thumbnailUrl }

/-- The channel badge (source lines 140–155): rendered only when
`cast.tags.length > 0`, from the first tag; icon and name each shown only
when present. -/
structure ChannelBadge where
  imageUrl : Option String
  name : Option String
deriving DecidableEq, Repr

/-- Channel badge derivation from the tag list. -/
def derivedChannel (c : Cast) : Option ChannelBadge :=
  match c.tags with
  | [] => none
  | t :: _ => some { imageUrl := t.imageUrl, name := t.name }

/-- Line 80: the canonical cast URL
`https://warpcast.com/${author.username}/${cast.hash}`. -/
def warpcastUrl (username hash : JStr) : JStr :=
  str "https://warpcast.com/" ++ username ++ '/' :: hash

/-- The flattened, render-ready projection of a cast: every derived display
field of the embed markup that is not pure styling.  The timestamp is kept
as the raw instant (`new Date(cast.timestamp)`); its locale formatting is
presentational. -/
structure ViewModel where
  profileUrl : String
  avatarUrl : String
  authorDisplayName : String
  authorUsername : JStr
  timestamp : Nat
  text : String
  castUrl : JStr
  images : List RenderedImage
  videos : List RenderedVideo
  channel : Option ChannelBadge
  repliesText : String
  recastsText : String
  likesText : String
  watchesText : String
deriving DecidableEq, Repr

/-- The derivation and render of a resolved cast (source lines 68–190),
with every JavaScript fault surfaced as `.error`, in source evaluation
order: the recast derivation on line 83 faults first when `recasts` is
absent and `combinedRecastCount` is falsy; then, while the markup tree is
built, each engagement-count span formats its count with
`toLocaleString("en-US")`, a `TypeError` when that count is `undefined`
(lines 161, 167, 173, 179: replies, recasts, likes, watches in order). -/
def renderCast (c : Cast) : Except String ViewModel :=
  match derivedRecasts c with
  | .error e => .error e
  | .ok recasts =>
  match formatCount (derivedReplies c) with
  | .error e => .error e
  | .ok repliesText =>
  match formatCount (derivedLikes c) with
  | .error e => .error e
  | .ok likesText =>
  match formatCount (derivedWatches c) with
  | .error e => .error e
  | .ok watchesText =>
  .ok
    { profileUrl := "https://warpcast.com/~/profiles/" ++ toString c.author.fid
      avatarUrl := c.author.pfpUrl
      authorDisplayName := c.author.displayName
      authorUsername := c.author.username
      timestamp := c.timestamp
      text := c.text
      castUrl := warpcastUrl c.author.username c.hash
      images := renderedImages c
      videos := renderedVideos c
      channel := derivedChannel c
      repliesText := repliesText
      recastsText := toLocaleStringEnUS recasts
      likesText := likesText
      watchesText := watchesText }

/-- Lines 57–61: when a truthy `url` is given, `username` and `hash` are
overwritten by positional segments 3 and 4 of `url.split("/")` (possibly
`undefined`); otherwise the caller-supplied pair is kept. -/
def effectiveParams (url username hash : Option JStr) :
    Option JStr × Option JStr :=
  match url with
  | some u =>
    if u.isEmpty then (username, hash)
    else ((jsSplit '/' u)[3]?, (jsSplit '/' u)[4]?)
  | none => (username, hash)

/-- The possible outcomes of the render entry point other than a rendered
view model. -/
inductive EmbedError where
  /-- The explicit `throw` on line 64 (`invalidInputMsg`). -/
  | invalidInput
  /-- The error thrown by `getCast` propagating out unhandled (always
  `fetchErrorMsg`). -/
  | fetchFailed (msg : String)
  /-- An unhandled JavaScript `TypeError` during derivation or render. -/
  | unhandledFault (msg : String)
deriving DecidableEq, Repr

/-- Model of the render entry point `FarcasterEmbed` (source lines 55–190):
normalize the inputs, validate that both `username` and `hash` are truthy
(else throw `invalidInputMsg`), resolve the cast via `getCast` (its error
propagates unhandled), then derive and render.  When `getCast` returns
`undefined` (root-embed wrapper with no second entry), line 68
(`cast.author`) throws a `TypeError`. -/
def farcasterEmbed (url username hash : Option JStr)
    (fetchResult : Except String ProviderResponse) :
    Except EmbedError ViewModel :=
  let p := effectiveParams url username hash
  if optStrFalsy p.1 || optStrFalsy p.2 then
    .error .invalidInput
  else
    match getCast fetchResult with
    | .error e => .error (.fetchFailed e)
    | .ok none => .error (.unhandledFault "TypeError: cannot read author of undefined")
    | .ok (some c) =>
      match renderCast c with
      | .error e => .error (.unhandledFault e)
      | .ok vm => .ok vm

/-- The pair `(urlParts[3], urlParts[4])` read from a URL by lines 58–60:
path segment 3 is the author handle, segment 4 the hash prefix. -/
def parseParts (u : JStr) : Option JStr × Option JStr :=
  ((jsSplit '/' u)[3]?, (jsSplit '/' u)[4]?)

/-! ## Helper lemmas about `jsSplit` -/

/-- A separator-free string splits into the single segment it already is. -/
theorem jsSplit_no_sep (sep : Char) (l : JStr) (h : sep ∉ l) :
    jsSplit sep l = [l] := by
  induction l with
  | nil => rfl
  | cons c rest ih =>
    simp only [List.mem_cons, not_or] at h
    rw [jsSplit, if_neg (fun hc => h.1 hc.symm), ih h.2]

/-- Splitting a string that starts with a separator-free segment followed by
a separator yields that segment and then the split of the remainder. -/
theorem jsSplit_append_sep (sep : Char) (l₁ l₂ : JStr) (h : sep ∉ l₁) :
    jsSplit sep (l₁ ++ sep :: l₂) = l₁ :: jsSplit sep l₂ := by
  induction l₁ with
  | nil => simp [jsSplit]
  | cons c rest ih =>
    simp only [List.mem_cons, not_or] at h
    rw [List.cons_append, jsSplit, if_neg (fun hc => h.1 hc.symm), ih h.2]

/-- The canonical cast URL decomposed at its separators. -/
theorem warpcastUrl_decomp (u h : JStr) :
    warpcastUrl u h =
      str "https:" ++ '/' ::
        ([] ++ '/' :: (str "warpcast.com" ++ '/' :: (u ++ '/' :: h))) := by
  simp [warpcastUrl, str]

/-- Parsing a canonical cast URL built from a slash-free username and hash
recovers exactly that username at segment 3 and that hash at segment 4. -/
theorem parseParts_warpcastUrl (u h : JStr) (hu : '/' ∉ u) (hh : '/' ∉ h) :
    parseParts (warpcastUrl u h) = (some u, some h) := by
  have h6 : ('/' : Char) ∉ str "https:" := by decide
  have h12 : ('/' : Char) ∉ str "warpcast.com" := by decide
  have h0 : ('/' : Char) ∉ ([] : JStr) := by simp
  rw [parseParts, warpcastUrl_decomp, jsSplit_append_sep _ _ _ h6,
    jsSplit_append_sep _ _ _ h0, jsSplit_append_sep _ _ _ h12,
    jsSplit_append_sep _ _ _ hu, jsSplit_no_sep _ _ hh]
  rfl

/-! ## Concrete fixtures used by the witnesses -/

/-- A concrete author. -/
def authorBase : Author :=
  { fid := 3
    username := str "dwr"
    displayName := "Dan"
    pfpUrl := "https://i.example/pfp.png" }

/-- A concrete, fully-populated ordinary cast. -/
def castBase : Cast :=
  { castType := none
    author := authorBase
    hash := str "0x1ea99cbe"
    timestamp := 1709647620000
    text := "hello"
    replies := some ⟨1⟩
    reactions := some ⟨2⟩
    combinedRecastCount := none
    recasts := some ⟨3⟩
    watches := some ⟨4⟩
    embeds := none
    tags := [] }

/-- A concrete image list. -/
def imgsFixture : List CastImage :=
  [{ type := "image"
     url := "https://i.example/a.png"
     sourceUrl := "https://i.example/a"
     alt := "a" }]

/-- A concrete video list with a 1920×1080 video. -/
def vidsFixture : List CastVideo :=
  [{ url := "https://v.example/v"
     sourceUrl := "https://v.example/v.m3u8"
     width := 1920
     height := 1080
     duration := 10
     thumbnailUrl := "https://v.example/t.png" }]

/-- A concrete `embeds` sub-object carrying both media lists. -/
def embedsFixture : CastEmbeds :=
  { images := some imgsFixture, videos := some vidsFixture }

/-- `castBase` with media embeds attached. -/
def castMedia : Cast := { castBase with embeds := some embedsFixture }

/-- `castBase` marked as a `"root-embed"` wrapper. -/
def rootEmbedCast : Cast := { castBase with castType := some "root-embed" }

/-! ## Claim theorems -/

/-- **C1.** For every provider response with at least two casts, the
resolver returns the second cast exactly when the first cast's `castType`
marks it as a `"root-embed"` wrapper, and otherwise returns the first cast
unchanged. -/
theorem getCast_selection (c0 c1 : Cast) (rest : List Cast) :
    getCast (.ok ⟨c0 :: c1 :: rest⟩) =
      .ok (some (if c0.castType = some "root-embed" then c1 else c0)) := by
  by_cases h : c0.castType = some "root-embed" <;>
    simp [getCast, selectCast, h]

/-- **C2.** Recast-count derivation: a present, non-zero
`combinedRecastCount` is used verbatim; otherwise (absent or zero, i.e.
falsy) `recasts.count` is used. -/
theorem recastCount_derivation (c : Cast) :
    (∀ n, c.combinedRecastCount = some n → n ≠ 0 → derivedRecasts c = .ok n) ∧
    (optNatTruthy c.combinedRecastCount = false →
      ∀ r, c.recasts = some r → derivedRecasts c = .ok r.count) := by
  constructor
  · intro n hn hne
    simp [derivedRecasts, hn, hne]
  · intro hf r hr
    cases hc : c.combinedRecastCount with
    | none => simp [derivedRecasts, hc, hr]
    | some n =>
      have hn0 : n = 0 := by simpa [optNatTruthy, hc] using hf
      subst hn0
      simp [derivedRecasts, hc, hr]

/-- Witness for C2: `combinedRecastCount = 0, recasts.count = 7` yields `7`,
and `combinedRecastCount = 12` yields `12`. -/
theorem recastCount_derivation_witness :
    derivedRecasts { castBase with combinedRecastCount := some 0, recasts := some ⟨7⟩ } = .ok 7 ∧
    derivedRecasts { castBase with combinedRecastCount := some 12, recasts := none } = .ok 12 :=
  ⟨(recastCount_derivation
      { castBase with combinedRecastCount := some 0, recasts := some ⟨7⟩ }).2 rfl ⟨7⟩ rfl,
   (recastCount_derivation
      { castBase with combinedRecastCount := some 12, recasts := none }).1 12 rfl (by decide)⟩

/-- **C4.** The derived reply, like and watch counts equal the `count` of
the corresponding sub-object when it is present, and remain the absent
(`undefined`) value — not `0` — when it is absent. -/
theorem absentCountsPropagate (c : Cast) :
    (∀ r, c.replies = some r → derivedReplies c = some r.count) ∧
    (c.replies = none → derivedReplies c = none) ∧
    (∀ r, c.reactions = some r → derivedLikes c = some r.count) ∧
    (c.reactions = none → derivedLikes c = none) ∧
    (∀ w, c.watches = some w → derivedWatches c = some w.count) ∧
    (c.watches = none → derivedWatches c = none) :=
  ⟨fun r h => by simp [derivedReplies, h],
   fun h => by simp [derivedReplies, h],
   fun r h => by simp [derivedLikes, h],
   fun h => by simp [derivedLikes, h],
   fun w h => by simp [derivedWatches, h],
   fun h => by simp [derivedWatches, h]⟩

/-- Witness for C4 at concrete casts: present counts are read through,
absent ones stay absent (and in particular are not `some 0`). -/
theorem absentCountsPropagate_witness :
    derivedReplies castBase = some 1 ∧
    derivedLikes castBase = some 2 ∧
    derivedWatches castBase = some 4 ∧
    derivedReplies { castBase with replies := none } = none ∧
    derivedLikes { castBase with reactions := none } = none ∧
    derivedWatches { castBase with watches := none } = none :=
  ⟨(absentCountsPropagate castBase).1 ⟨1⟩ rfl,
   (absentCountsPropagate castBase).2.2.1 ⟨2⟩ rfl,
   (absentCountsPropagate castBase).2.2.2.2.1 ⟨4⟩ rfl,
   (absentCountsPropagate { castBase with replies := none }).2.1 rfl,
   (absentCountsPropagate { castBase with reactions := none }).2.2.2.1 rfl,
   (absentCountsPropagate { castBase with watches := none }).2.2.2.2.2 rfl⟩

/-- **C5.** Any underlying fetch/parse failure makes the resolver fail with
the single generic `fetchErrorMsg`, independently of the underlying error
(it is never propagated unwrapped), and never yields a cast (no recovery). -/
theorem getCast_wraps_failures (e : String) :
    getCast (.error e) = .error fetchErrorMsg ∧
    (getCast (.error e)).isOk = false :=
  ⟨rfl, rfl⟩

/-- A non-nil character list is not `isEmpty`. -/
theorem isEmpty_false_of_ne_nil {l : JStr} (h : l ≠ []) : l.isEmpty = false := by
  cases l with
  | nil => exact absurd rfl h
  | cons a t => rfl

/-- **C3.** The render entry point fails with the invalid-input error
exactly when, after URL normalization (segment 3 = handle, segment 4 = hash
prefix), the effective handle or hash prefix is absent or empty. -/
theorem invalidInput_iff (url username hash : Option JStr)
    (f : Except String ProviderResponse) :
    farcasterEmbed url username hash f = .error .invalidInput ↔
      (optStrFalsy (effectiveParams url username hash).1
        || optStrFalsy (effectiveParams url username hash).2) = true := by
  simp only [farcasterEmbed]
  split
  next hcond => simp [hcond]
  next hcond =>
    simp only [hcond, iff_false]
    split
    · simp
    · simp
    · split <;> simp

/-- Witness for C3 at concrete inputs: a missing hash fails with the
invalid-input error, while a complete pair does not trip the validation. -/
theorem invalidInput_iff_witness :
    farcasterEmbed none (some (str "dwr")) none (.error "network down") =
      .error .invalidInput :=
  (invalidInput_iff none (some (str "dwr")) none (.error "network down")).mpr rfl

/-- **C6.** Round trip: parsing a canonical URL (built from a slash-free
handle and hash) yields that handle and hash, and the canonical link derived
from a resolved cast carrying the same author handle and hash parses back to
exactly the same pair. -/
theorem url_roundTrip (u h : JStr) (c : Cast)
    (hu : '/' ∉ u) (hh : '/' ∉ h)
    (hcu : c.author.username = u) (hch : c.hash = h) :
    parseParts (warpcastUrl u h) = (some u, some h) ∧
    parseParts (warpcastUrl c.author.username c.hash) =
      parseParts (warpcastUrl u h) :=
  ⟨parseParts_warpcastUrl u h hu hh, by rw [hcu, hch]⟩

/-- Witness for C6 at a concrete URL. -/
theorem url_roundTrip_witness :
    parseParts (warpcastUrl (str "dwr") (str "0x1ea99cbe")) =
      (some (str "dwr"), some (str "0x1ea99cbe")) :=
  (url_roundTrip (str "dwr") (str "0x1ea99cbe") castBase
    (by decide) (by decide) rfl rfl).1

/-- **C9.** A supplied truthy URL takes precedence: its parsed segments 3
and 4 replace the caller's `username` and `hash` before validation, so the
entry point's result does not depend on the caller-supplied pair at all. -/
theorem url_precedence (u : JStr) (hu : u ≠ [])
    (username hash username' hash' : Option JStr)
    (f : Except String ProviderResponse) :
    effectiveParams (some u) username hash =
      ((jsSplit '/' u)[3]?, (jsSplit '/' u)[4]?) ∧
    farcasterEmbed (some u) username hash f =
      farcasterEmbed (some u) username' hash' f := by
  have he : u.isEmpty = false := isEmpty_false_of_ne_nil hu
  constructor
  · simp [effectiveParams, he]
  · simp [farcasterEmbed, effectiveParams, he]

/-- Witness for C9: with a URL given, two different caller-supplied pairs
produce the same result. -/
theorem url_precedence_witness :
    farcasterEmbed (some (str "https://warpcast.com/dwr/0x1e"))
        (some (str "alice")) (some (str "0xff")) (.ok ⟨[castBase]⟩) =
      farcasterEmbed (some (str "https://warpcast.com/dwr/0x1e"))
        none none (.ok ⟨[castBase]⟩) :=
  (url_precedence (str "https://warpcast.com/dwr/0x1e") (by decide)
    (some (str "alice")) (some (str "0xff")) none none (.ok ⟨[castBase]⟩)).2

/-- **C7.** Media mapping is order- and URL-preserving: the Nth image of
`embeds.images` maps to the Nth rendered image embed with `url` and `alt`
unchanged, the Nth video of `embeds.videos` maps to the Nth rendered video
embed with aspect ratio exactly `width / height`, and a successful render
carries exactly these lists. -/
theorem media_mapping (c : Cast) (e : CastEmbeds) (he : c.embeds = some e) :
    (∀ imgs, e.images = some imgs → ∀ n : Nat,
      (renderedImages c)[n]? =
        (imgs[n]?).map fun i => ({ url := i.url, alt := i.alt } : RenderedImage)) ∧
    (∀ vids, e.videos = some vids → ∀ n : Nat,
      (renderedVideos c)[n]? =
        (vids[n]?).map fun v =>
          ({ source := v.sourceUrl
             aspectRatio := (v.width : ℚ) / (v.height : ℚ)
             poster := v.thumbnailUrl } : RenderedVideo)) ∧
    (∀ vm, renderCast c = .ok vm →
      vm.images = renderedImages c ∧ vm.videos = renderedVideos c) := by
  refine ⟨?_, ?_, ?_⟩
  · intro imgs hi n
    simp [renderedImages, he, hi, List.getElem?_map]
  · intro vids hv n
    simp [renderedVideos, he, hv, List.getElem?_map]
  · intro vm hvm
    rw [renderCast] at hvm
    split at hvm
    · exact absurd hvm (by simp)
    · split at hvm
      · exact absurd hvm (by simp)
      · split at hvm
        · exact absurd hvm (by simp)
        · split at hvm
          · exact absurd hvm (by simp)
          · injection hvm with hvm'
            subst hvm'
            exact ⟨rfl, rfl⟩

/-- Witness for C7: a concrete cast with one image and one 1920×1080
video. -/
theorem media_mapping_witness :
    (renderedImages castMedia)[0]? =
      (imgsFixture[0]?).map (fun i => ({ url := i.url, alt := i.alt } : RenderedImage)) ∧
    (renderedVideos castMedia)[0]? =
      (vidsFixture[0]?).map (fun v =>
        ({ source := v.sourceUrl
           aspectRatio := (v.width : ℚ) / (v.height : ℚ)
           poster := v.thumbnailUrl } : RenderedVideo)) :=
  ⟨(media_mapping castMedia embedsFixture rfl).1 imgsFixture rfl 0,
   (media_mapping castMedia embedsFixture rfl).2.1 vidsFixture rfl 0⟩

/-- **C8.** Degenerate provider responses break the render: with valid
inputs, an empty cast list or a single `"root-embed"` wrapper with no second
entry both make the overall operation fail (the former is caught inside the
resolver and wrapped, the latter surfaces as an unhandled fault on
`cast.author`). -/
theorem degenerate_responses (u h : JStr) (c : Cast)
    (hu : u ≠ []) (hh : h ≠ []) (hroot : c.castType = some "root-embed") :
    (∃ e, farcasterEmbed none (some u) (some h) (.ok ⟨[]⟩) = .error e) ∧
    (∃ e, farcasterEmbed none (some u) (some h) (.ok ⟨[c]⟩) = .error e) := by
  have heu : u.isEmpty = false := isEmpty_false_of_ne_nil hu
  have heh : h.isEmpty = false := isEmpty_false_of_ne_nil hh
  constructor
  · exact ⟨.fetchFailed fetchErrorMsg,
      by simp [farcasterEmbed, effectiveParams, optStrFalsy, heu, heh,
        getCast, selectCast]⟩
  · exact ⟨.unhandledFault "TypeError: cannot read author of undefined",
      by simp [farcasterEmbed, effectiveParams, optStrFalsy, heu, heh,
        getCast, selectCast, hroot]⟩

/-- Witness for C8 at concrete inputs. -/
theorem degenerate_responses_witness :
    (∃ e, farcasterEmbed none (some (str "dwr")) (some (str "0x1"))
        (.ok ⟨[]⟩) = .error e) ∧
    (∃ e, farcasterEmbed none (some (str "dwr")) (some (str "0x1"))
        (.ok ⟨[rootEmbedCast]⟩) = .error e) :=
  degenerate_responses (str "dwr") (str "0x1") rootEmbedCast
    (by decide) (by decide) rfl

/-- An `Except` value that is not `ok` is an `error`. -/
theorem error_of_isOk_false {α β : Type} (x : Except α β)
    (hx : x.isOk = false) : ∃ e, x = .error e := by
  cases x with
  | error e => exact ⟨e, rfl⟩
  | ok v => simp [Except.isOk, Except.toBool] at hx

/-- **C10.** The render is not total over casts with absent counters: a
missing `replies`, `reactions` or `watches` sub-object makes the count
formatting fault, and a missing `recasts` sub-object with a falsy
`combinedRecastCount` makes the recast derivation fault — in all cases the
render fails. -/
theorem render_not_total (c : Cast) :
    (c.replies = none → ∃ e, renderCast c = .error e) ∧
    (c.reactions = none → ∃ e, renderCast c = .error e) ∧
    (c.watches = none → ∃ e, renderCast c = .error e) ∧
    (optNatTruthy c.combinedRecastCount = false → c.recasts = none →
      ∃ e, renderCast c = .error e) := by
  refine ⟨?_, ?_, ?_, ?_⟩
  · intro h
    apply error_of_isOk_false
    cases h1 : derivedRecasts c <;>
      simp [renderCast, h1, derivedReplies, h, formatCount, Except.isOk,
        Except.toBool]
  · intro h
    apply error_of_isOk_false
    cases h1 : derivedRecasts c <;>
      cases h2 : derivedReplies c <;>
        simp [renderCast, h1, h2, derivedLikes, h, formatCount, Except.isOk,
          Except.toBool]
  · intro h
    apply error_of_isOk_false
    cases h1 : derivedRecasts c <;>
      cases h2 : derivedReplies c <;>
        cases h3 : derivedLikes c <;>
          simp [renderCast, h1, h2, h3, derivedWatches, h, formatCount,
            Except.isOk, Except.toBool]
  · intro hf h
    apply error_of_isOk_false
    have h1 : derivedRecasts c = .error "TypeError: cannot read count of undefined" := by
      cases hc : c.combinedRecastCount with
      | none => simp [derivedRecasts, hc, h]
      | some n =>
        have hn0 : n = 0 := by simpa [optNatTruthy, hc] using hf
        subst hn0
        simp [derivedRecasts, hc, h]
    simp [renderCast, h1, Except.isOk, Except.toBool]

/-- Witness for C10 at concrete casts, one per missing counter. -/
theorem render_not_total_witness :
    (∃ e, renderCast { castBase with replies := none } = .error e) ∧
    (∃ e, renderCast { castBase with reactions := none } = .error e) ∧
    (∃ e, renderCast { castBase with watches := none } = .error e) ∧
    (∃ e, renderCast { castBase with recasts := none } = .error e) :=
  ⟨(render_not_total { castBase with replies := none }).1 rfl,
   (render_not_total { castBase with reactions := none }).2.1 rfl,
   (render_not_total { castBase with watches := none }).2.2.1 rfl,
   (render_not_total { castBase with recasts := none }).2.2.2 rfl rfl⟩
